import Mathlib

/-!
Verification of the sungrow-monitor core against its Go sources.

This file gives a shallow embedding of the register-decoding layer
(`internal/modbus/client.go`), the full-sweep snapshot reader
(`internal/inverter/sungrow.go`, `internal/inverter/registers.go`), the
acquisition/hot-reconfiguration logic (`internal/collector/collector.go`),
the baseline bucketing (`internal/storage/database.go`) and the insight
classification (`internal/api/server.go`), together with theorems settling
the specification claims about them.

Machine integers are modelled as `Nat`/`Int` with explicit `% 2^w` where the
Go code casts; Go `float64` scale factors and averages are modelled as exact
rationals; a device link is modelled as a pure function from
(address, quantity) to an optional word list, `none` standing for a read
error.
-/

namespace SungrowMonitor

/-- A device link. `d address quantity` models one
`modbus.Client.ReadInputRegisters(address, quantity)` call: `some regs` is a
successful reply, `none` a transport error. Within one sweep the device is
treated as a fixed word source. -/
def Device : Type := ℕ → ℕ → Option (List ℕ)

/-- Two's-complement reinterpretation of a 16-bit word, modelling Go's
`int16(reg)` cast. -/
def toInt16 (v : ℕ) : ℤ :=
  if v % 65536 < 32768 then ((v % 65536 : ℕ) : ℤ)
  else ((v % 65536 : ℕ) : ℤ) - 65536

/-- Two's-complement reinterpretation of a 32-bit value, modelling Go's
`int32(val)` cast. -/
def toInt32 (v : ℕ) : ℤ :=
  if v % 4294967296 < 2147483648 then ((v % 4294967296 : ℕ) : ℤ)
  else ((v % 4294967296 : ℕ) : ℤ) - 4294967296

/-- Model of `Client.ReadUint16`: read one register and return it.
Source: `client.go` lines 106-112. -/
def ReadUint16 (d : Device) (address : ℕ) : Option ℕ :=
  (d address 1).map fun regs => regs.getD 0 0

/-- Model of `Client.ReadInt16`: read one register, reinterpret as `int16`.
Source: `client.go` lines 114-120. -/
def ReadInt16 (d : Device) (address : ℕ) : Option ℤ :=
  (d address 1).map fun regs => toInt16 (regs.getD 0 0)

/-- Model of `Client.ReadUint32`: read two registers and combine them as
`uint32(regs[0]) | uint32(regs[1])<<16` — low word first.
Source: `client.go` lines 122-129. -/
def ReadUint32 (d : Device) (address : ℕ) : Option ℕ :=
  (d address 2).map fun regs => regs.getD 0 0 ||| regs.getD 1 0 <<< 16

/-- Model of `Client.ReadInt32`: the `ReadUint32` value reinterpreted via
`int32(val)`. Source: `client.go` lines 131-137. -/
def ReadInt32 (d : Device) (address : ℕ) : Option ℤ :=
  (ReadUint32 d address).map toInt32

/-- Byte expansion used by `Client.ReadString`: each word contributes
`byte(reg>>8)` then `byte(reg&0xFF)` — high byte first, in word order.
Source: `client.go` lines 145-148. -/
def bytesFromWords (regs : List ℕ) : List ℕ :=
  regs.flatMap fun reg => [(reg >>> 8) % 256, reg &&& 255]

/-- Trailing-NUL stripping loop of `Client.ReadString`: while the last byte
is zero, drop it (`client.go` lines 150-153). Expressed as: reverse, drop
the leading zeros, reverse back. -/
def stripTrailingNuls (bs : List ℕ) : List ℕ :=
  (bs.reverse.dropWhile fun b => b == 0).reverse

/-- Decoded byte content of `Client.ReadString` for a given word list
(Go returns these bytes as a `string`). -/
def readStringBytes (regs : List ℕ) : List ℕ :=
  stripTrailingNuls (bytesFromWords regs)

/-- Model of `Client.ReadString`: read `length` registers and decode their
bytes. Source: `client.go` lines 139-156. -/
def ReadString (d : Device) (address length : ℕ) : Option (List ℕ) :=
  (d address length).map readStringBytes

/-- A device link that answers every read with the same fixed word list
(used for concrete test inputs). -/
def constDev (ws : List ℕ) : Device := fun _ _ => some ws

/-- Auxiliary: a value below `2 ^ n` or-ed with a value shifted left by `n`
is their sum — the bit ranges are disjoint. -/
theorem lor_shiftLeft_eq_add :
    ∀ (n w0 w1 : ℕ), w0 < 2 ^ n → w0 ||| (w1 <<< n) = w0 + w1 * 2 ^ n := by
  intro n
  induction n with
  | zero =>
    intro w0 w1 h0
    interval_cases w0
    simp [Nat.shiftLeft_eq]
  | succ n ih =>
    intro w0 w1 h0
    have hd : Nat.div2 w0 < 2 ^ n := by
      rw [Nat.div2_val]
      omega
    have hbit := Nat.bit_decomp w0
    have hshift : w1 <<< (n + 1) = Nat.bit false (w1 <<< n) := by
      simp [Nat.shiftLeft_eq, Nat.bit_val, pow_succ]
      ring
    calc w0 ||| (w1 <<< (n + 1))
        = Nat.bit (Nat.bodd w0) (Nat.div2 w0) ||| Nat.bit false (w1 <<< n) := by
          rw [hbit, hshift]
      _ = Nat.bit (Nat.bodd w0 || false) (Nat.div2 w0 ||| (w1 <<< n)) := by
          rw [Nat.lor_bit]
      _ = Nat.bit (Nat.bodd w0) (Nat.div2 w0 + w1 * 2 ^ n) := by
          rw [Bool.or_false, ih _ w1 hd]
      _ = w0 + w1 * 2 ^ (n + 1) := by
          have h2 : w1 * 2 ^ (n + 1) = 2 * (w1 * 2 ^ n) := by ring
          simp only [Nat.bit_val] at hbit ⊢
          omega

/-! ## Register map (`internal/inverter/registers.go`) -/

/-- Register address of the serial-number string (10 words). -/
def RegSerialNumber : ℕ := 4989

/-- Register address of the device type code. -/
def RegDeviceTypeCode : ℕ := 4999

/-- Register address of the nominal power (0.1 kW). -/
def RegNominalPower : ℕ := 5000

/-- Register address of the output type enum. -/
def RegOutputType : ℕ := 5001

/-- Register address of the daily energy (0.1 kWh). -/
def RegDailyEnergy : ℕ := 5002

/-- Register address of the total energy (U32, 0.1 kWh). -/
def RegTotalEnergy : ℕ := 5003

/-- Register address of the internal temperature (S16, 0.1 °C). -/
def RegInsideTemperature : ℕ := 5007

/-- Register address of the MPPT1 voltage (0.1 V). -/
def RegMPPT1Voltage : ℕ := 5010

/-- Register address of the MPPT1 current (0.01 A). -/
def RegMPPT1Current : ℕ := 5011

/-- Register address of the MPPT2 voltage (0.1 V). -/
def RegMPPT2Voltage : ℕ := 5012

/-- Register address of the MPPT2 current (0.01 A). -/
def RegMPPT2Current : ℕ := 5013

/-- Register address of the total DC power (U32, W). -/
def RegTotalDCPower : ℕ := 5016

/-- Register address of the phase-A voltage (0.1 V). -/
def RegPhaseAVoltage : ℕ := 5018

/-- Register address of the grid frequency (0.1 Hz). -/
def RegGridFrequency : ℕ := 5021

/-- Register address of the phase-A current (0.1 A). -/
def RegPhaseACurrent : ℕ := 5022

/-- Register address of the total active power (U32, W). -/
def RegTotalActivePower : ℕ := 5030

/-- Register address of the reactive power (S32, var). -/
def RegReactivePower : ℕ := 5032

/-- Register address of the power factor (S16, 0.001). -/
def RegPowerFactor : ℕ := 5034

/-- Register address of the running state enum. -/
def RegRunningState : ℕ := 5037

/-- Register address of the fault code. -/
def RegFaultCode : ℕ := 5039

/-- Model of `GetRunningStateString` (`registers.go` lines 64-83). -/
def GetRunningStateString (state : ℕ) : String :=
  if state = 0x0000 then "Stop"
  else if state = 0x8000 then "Standby"
  else if state = 0x1300 then "Starting up"
  else if state = 0x1400 then "MPPT"
  else if state = 0x1500 then "Fault"
  else if state = 0x1600 then "Power limiting"
  else if state = 0x1700 then "Shutdown"
  else "Unknown"

/-- Model of `GetOutputTypeString` (`registers.go` lines 85-96). -/
def GetOutputTypeString (outputType : ℕ) : String :=
  if outputType = 0 then "Single Phase"
  else if outputType = 1 then "Three Phase 4 Lines"
  else if outputType = 2 then "Three Phase 3 Lines"
  else "Unknown"

/-! ## Snapshot reader (`internal/inverter/sungrow.go`) -/

/-- Model of the `InverterData` struct (`sungrow.go` lines 10-49). The
`Timestamp` field (wall-clock `time.Now()`) is omitted; Go `float64` fields
are modelled as exact rationals; the serial-number string is its byte
content. -/
structure InverterData where
  SerialNumber : List ℕ := []
  DeviceTypeCode : ℕ := 0
  NominalPower : ℚ := 0
  OutputType : String := ""
  DailyEnergy : ℚ := 0
  TotalEnergy : ℚ := 0
  Temperature : ℚ := 0
  MPPT1Voltage : ℚ := 0
  MPPT1Current : ℚ := 0
  MPPT2Voltage : ℚ := 0
  MPPT2Current : ℚ := 0
  TotalDCPower : ℕ := 0
  GridVoltage : ℚ := 0
  GridFrequency : ℚ := 0
  GridCurrent : ℚ := 0
  TotalActivePower : ℕ := 0
  ReactivePower : ℤ := 0
  PowerFactor : ℚ := 0
  RunningState : ℕ := 0
  RunningStateString : String := ""
  FaultCode : ℕ := 0
  IsOnline : Bool := false
  Errors : List String := []
deriving DecidableEq

/-- The record `ReadAllData` starts from (`sungrow.go` lines 60-64): all
fields at their zero defaults, `IsOnline = false`, empty error list. -/
def initialInverterData : InverterData := {}

/-- Error-list contribution of one guarded read: the Go code appends the
field name exactly when the read returned an error. -/
def errIf {α : Type} (o : Option α) (name : String) : List String :=
  if o.isSome then [] else [name]

/-- Model of `Sungrow.ReadAllData` (`sungrow.go` lines 59-178). The Boolean
component models `err ≠ nil` of the returned pair. If the serial-number
probe fails the initial record is returned together with the error
(lines 66-71). Otherwise every other field is attempted: since the device
is a pure word source and each `if`-block of the Go code assigns one
distinct field (or appends one name to `Errors`), the straight-line
sequence of guarded assignments is written as one record literal, field by
field in source order; `Errors` keeps the source's append order. Only the
five reads at lines 76-114 append to `Errors` on failure; the remaining
reads fail silently, `output_type` falling back to `"Single Phase"`
(line 93) and the running-state string to `"Unknown"` (line 170). -/
def ReadAllData (d : Device) : InverterData × Bool :=
  match ReadString d RegSerialNumber 10 with
  | none => (initialInverterData, true)
  | some serial =>
    ({ SerialNumber := serial
       IsOnline := true
       DeviceTypeCode := (ReadUint16 d RegDeviceTypeCode).getD 0
       NominalPower :=
         match ReadUint16 d RegNominalPower with
         | some v => (v : ℚ) * 0.1
         | none => 0
       OutputType :=
         match ReadUint16 d RegOutputType with
         | some v => GetOutputTypeString v
         | none => "Single Phase"
       DailyEnergy :=
         match ReadUint16 d RegDailyEnergy with
         | some v => (v : ℚ) * 0.1
         | none => 0
       TotalEnergy :=
         match ReadUint32 d RegTotalEnergy with
         | some v => (v : ℚ) * 0.1
         | none => 0
       Temperature :=
         match ReadInt16 d RegInsideTemperature with
         | some v => (v : ℚ) * 0.1
         | none => 0
       MPPT1Voltage :=
         match ReadUint16 d RegMPPT1Voltage with
         | some v => (v : ℚ) * 0.1
         | none => 0
       MPPT1Current :=
         match ReadUint16 d RegMPPT1Current with
         | some v => (v : ℚ) * 0.01
         | none => 0
       MPPT2Voltage :=
         match ReadUint16 d RegMPPT2Voltage with
         | some v => (v : ℚ) * 0.1
         | none => 0
       MPPT2Current :=
         match ReadUint16 d RegMPPT2Current with
         | some v => (v : ℚ) * 0.01
         | none => 0
       TotalDCPower := (ReadUint32 d RegTotalDCPower).getD 0
       GridVoltage :=
         match ReadUint16 d RegPhaseAVoltage with
         | some v => (v : ℚ) * 0.1
         | none => 0
       GridFrequency :=
         match ReadUint16 d RegGridFrequency with
         | some v => (v : ℚ) * 0.1
         | none => 0
       GridCurrent :=
         match ReadUint16 d RegPhaseACurrent with
         | some v => (v : ℚ) * 0.1
         | none => 0
       TotalActivePower := (ReadUint32 d RegTotalActivePower).getD 0
       ReactivePower := (ReadInt32 d RegReactivePower).getD 0
       PowerFactor :=
         match ReadInt16 d RegPowerFactor with
         | some v => (v : ℚ) * 0.001
         | none => 0
       RunningState := (ReadUint16 d RegRunningState).getD 0
       RunningStateString :=
         match ReadUint16 d RegRunningState with
         | some v => GetRunningStateString v
         | none => "Unknown"
       FaultCode := (ReadUint16 d RegFaultCode).getD 0
       Errors :=
         errIf (ReadUint16 d RegDeviceTypeCode) "device_type" ++
         errIf (ReadUint16 d RegNominalPower) "nominal_power" ++
         errIf (ReadUint16 d RegDailyEnergy) "daily_energy" ++
         errIf (ReadUint32 d RegTotalEnergy) "total_energy" ++
         errIf (ReadInt16 d RegInsideTemperature) "temperature" }, false)

/-- The `(address, quantity)` trace of device reads issued by one
`ReadAllData` sweep, in source order: the serial-number probe always runs
first; the nineteen remaining reads are issued exactly when the probe
succeeded (`sungrow.go` lines 66-175). -/
def ReadAllDataTrace (d : Device) : List (ℕ × ℕ) :=
  (RegSerialNumber, 10) ::
    match ReadString d RegSerialNumber 10 with
    | none => []
    | some _ =>
      [(RegDeviceTypeCode, 1), (RegNominalPower, 1), (RegOutputType, 1),
       (RegDailyEnergy, 1), (RegTotalEnergy, 2), (RegInsideTemperature, 1),
       (RegMPPT1Voltage, 1), (RegMPPT1Current, 1), (RegMPPT2Voltage, 1),
       (RegMPPT2Current, 1), (RegTotalDCPower, 2), (RegPhaseAVoltage, 1),
       (RegGridFrequency, 1), (RegPhaseACurrent, 1), (RegTotalActivePower, 2),
       (RegReactivePower, 2), (RegPowerFactor, 1), (RegRunningState, 1),
       (RegFaultCode, 1)]

/-! ## Acquisition loop and hot reconfiguration
(`internal/collector/collector.go`) -/

/-- Mutable collector state relevant to one tick: whether the modbus client
currently holds an open connection (`client.client ≠ nil`) and the published
`latestData` snapshot. -/
structure CollectorState where
  connected : Bool
  latestData : Option InverterData
deriving DecidableEq

/-- Environment of one acquisition tick: the outcome `Connect` would have if
a fresh connection is attempted, the word source backing the first sweep,
the outcome of a `Reconnect` attempt, and the word source backing the retry
sweep after a successful reconnect. -/
structure TickEnv where
  connectOk : Bool
  dev1 : Device
  reconnectOk : Bool
  dev2 : Device

/-- Result of one `collect` tick: the new state plus how many `Reconnect`
calls and how many retry sweeps (second `ReadAllData` calls) the tick
issued. -/
structure TickResult where
  state : CollectorState
  reconnectCalls : ℕ
  retrySweeps : ℕ
deriving DecidableEq

/-- Model of `Collector.collect` (`collector.go` lines 80-138). `Connect`
is idempotent (a no-op when already connected, `client.go` lines 29-35); a
failed `Connect` aborts the tick (lines 93-97). If the first sweep fails,
exactly one `Reconnect` is attempted; if the reconnect fails the tick gives
up (lines 103-107), otherwise exactly one retry sweep runs and on failure
the tick gives up (lines 109-114). A successful sweep is published as
`latestData` (lines 118-120); persistence/MQTT are external and omitted. A
failed `Reconnect` leaves the client closed (`Reconnect` is close-then-
connect, `client.go` lines 158-161). -/
def collect (st : CollectorState) (env : TickEnv) : TickResult :=
  if st.connected || env.connectOk then
    match ReadAllData env.dev1 with
    | (data, false) => ⟨⟨true, some data⟩, 0, 0⟩
    | (_, true) =>
      if env.reconnectOk then
        match ReadAllData env.dev2 with
        | (data2, false) => ⟨⟨true, some data2⟩, 1, 1⟩
        | (_, true) => ⟨⟨true, st.latestData⟩, 1, 1⟩
      else ⟨⟨false, st.latestData⟩, 1, 0⟩
  else ⟨⟨st.connected, st.latestData⟩, 0, 0⟩

/-- Active link / reader / snapshot state guarded by the collector mutex,
as touched by `UpdateInverterConfig`: the active device link (the `client`
and the `sungrow` reader built on it) and `latestData`. -/
structure CState where
  clientDev : Device
  latestData : Option InverterData

/-- A candidate configuration for hot reconfiguration: whether
`newClient.Connect()` succeeds, and the word source the new link would
serve. -/
structure Candidate where
  connectOk : Bool
  dev : Device

/-- Result of `UpdateInverterConfig`: the state after the call, whether an
error was returned, and which links were closed during the call. -/
structure UpdateResult where
  state : CState
  failed : Bool
  oldClosed : Bool
  newClosed : Bool

/-- Model of `Collector.UpdateInverterConfig` (`collector.go` lines
173-211): build a new client, connect it (failure returns the error with
nothing changed, lines 186-189), run one validation `ReadAllData` sweep
(failure closes the new client and returns the error with nothing changed,
lines 193-198); only on success is the old client closed and the new
client/reader/data swapped in (lines 200-207). -/
def UpdateInverterConfig (st : CState) (cand : Candidate) : UpdateResult :=
  if cand.connectOk then
    match ReadAllData cand.dev with
    | (data, false) => ⟨⟨cand.dev, some data⟩, false, true, false⟩
    | (_, true) => ⟨st, true, false, true⟩
  else ⟨st, true, false, false⟩

/-! ## Weather classification and production insight
(`internal/api/server.go`) -/

/-- Fields of `weather.Data` used by `classifyWeather`: the condition
string, cloud cover percent (Go `int`), and rain volumes (Go `float64`,
modelled as rationals). -/
structure WeatherData where
  Condition : String
  Clouds : ℤ
  Rain1h : ℚ
  Rain3h : ℚ
deriving DecidableEq

/-- Character-list prefix test (`a` is a prefix of `b`). -/
def isPre : List Char → List Char → Bool
  | [], _ => true
  | _ :: _, [] => false
  | a :: s, b :: t => a == b && isPre s t

/-- Character-list substring test, modelling Go's `strings.Contains`. -/
def containsSeq (sub : List Char) : List Char → Bool
  | [] => isPre sub []
  | c :: t => isPre sub (c :: t) || containsSeq sub t

/-- Model of `strings.Contains(strings.ToLower(condition), "thunder")`
(`server.go` lines 673-674). -/
def containsThunder (condition : String) : Bool :=
  containsSeq "thunder".toList (condition.toList.map Char.toLower)

/-- Effective rain volume of `classifyWeather` (`server.go` lines 668-671):
`Rain1h`, replaced by `Rain3h/3` when that is larger. -/
def weatherRain (data : WeatherData) : ℚ :=
  if data.Rain3h / 3 > data.Rain1h then data.Rain3h / 3 else data.Rain1h

/-- Model of `classifyWeather` (`server.go` lines 663-694): `nil` maps to
the empty label; otherwise the first matching case of
thunder / heavy rain / rain / cloud-cover levels wins. -/
def classifyWeather (o : Option WeatherData) : String :=
  match o with
  | none => ""
  | some data =>
    if containsThunder data.Condition then "temporal"
    else if weatherRain data ≥ 5 then "chuva forte"
    else if weatherRain data ≥ 1 then "chuva"
    else if data.Clouds ≥ 80 then "céu encoberto"
    else if data.Clouds ≥ 50 then "nublado"
    else if data.Clouds > 0 then "poucas nuvens"
    else "céu limpo"

/-- Minimum matched-sample count for a baseline comparison
(`insightMinSamples`, `server.go` line 278). -/
def insightMinSamples : ℕ := 20

/-- Low-production ratio threshold (`insightLowRatio`, `server.go`
line 279). -/
def insightLowRatio : ℚ := 0.4

/-- Status/ratio/label triple computed by the insight handler. -/
structure InsightResult where
  status : String
  ratio : ℚ
  weatherLabel : String
deriving DecidableEq

/-- Model of the classification block of `productionInsightsHandler`
(`server.go` lines 302-328), with the daylight flag, the matched sample
count and average from the baseline query, the latest
`TotalActivePower`, and the cached weather snapshot as inputs. `status`
starts `"unknown"`, `ratio` `0`, `weatherLabel` empty; not-daylight yields
`"night"` with no comparison; too few samples or a non-positive average
yields `"insufficient_history"`; otherwise the ratio and weather label are
computed and compared against the low threshold. -/
def productionInsight (daylight : Bool) (samples : ℕ) (avg : ℚ)
    (actualPower : ℕ) (weather : Option WeatherData) : InsightResult :=
  if !daylight then ⟨"night", 0, ""⟩
  else if samples < insightMinSamples ∨ avg ≤ 0 then
    ⟨"insufficient_history", 0, ""⟩
  else
    let ratio : ℚ := (actualPower : ℚ) / avg
    let weatherLabel := classifyWeather weather
    if ratio < insightLowRatio then
      if weatherLabel ≠ "" then ⟨"low_power_weather", ratio, weatherLabel⟩
      else ⟨"low_power_unexpected", ratio, weatherLabel⟩
    else ⟨"normal", ratio, weatherLabel⟩

/-! ## Baseline bucketing (`internal/storage/database.go`) -/

/-- Projection of one persisted sample as used by the in-memory filter of
`GetAveragePowerForTimeOfDay`: its local time-of-day in minutes
(`ts.Hour()*60 + ts.Minute()`) and its `total_active_power`. -/
structure PowerSample where
  minutes : ℕ
  power : ℕ
deriving DecidableEq

/-- Samples of the fetched window whose local time-of-day falls in the
bucket of `nowMinutes` (`database.go` lines 187-201): with
`bucketStart = (nowMinutes / bm) * bm` (Go integer division), a sample
matches iff its minutes lie in `[bucketStart, bucketStart + bm)`. A
non-positive `bucketMinutes` is replaced by 30 (lines 172-174; the model's
`Nat` argument makes that the zero case). -/
def bucketMatched (nowMinutes bucketMinutes : ℕ)
    (samples : List PowerSample) : List PowerSample :=
  let bm := if bucketMinutes = 0 then 30 else bucketMinutes
  let bucketStart := (nowMinutes / bm) * bm
  let bucketEnd := bucketStart + bm
  samples.filter fun s => decide (bucketStart ≤ s.minutes ∧ s.minutes < bucketEnd)

/-- Model of the aggregation of `GetAveragePowerForTimeOfDay`
(`database.go` lines 168-207) over the samples returned by the SQL window
query: average power and count over the bucket-matched samples, `(0, 0)`
when none match. -/
def GetAveragePowerForTimeOfDay (nowMinutes bucketMinutes : ℕ)
    (samples : List PowerSample) : ℚ × ℕ :=
  let matched := bucketMatched nowMinutes bucketMinutes samples
  let total : ℚ := (matched.map fun s => (s.power : ℚ)).sum
  let count := matched.length
  if count = 0 then (0, 0) else (total / count, count)

/-! ## Theorems -/

/-- Auxiliary: the head of `dropWhile p l` does not satisfy `p`. -/
theorem dropWhile_head_not {α : Type} (p : α → Bool) :
    ∀ (l : List α) (a : α), (l.dropWhile p).head? = some a → p a = false := by
  intro l
  induction l with
  | nil => intro a h; simp [List.dropWhile] at h
  | cons x t ih =>
    intro a h
    by_cases hx : p x
    · rw [List.dropWhile_cons_of_pos hx] at h
      exact ih a h
    · rw [List.dropWhile_cons_of_neg hx] at h
      simp at h
      subst h
      exact Bool.not_eq_true _ ▸ (by simpa using hx)

/-- Auxiliary: the last element of a reversed list is its head. -/
theorem getLast?_reverse_eq_head? {α : Type} (l : List α) :
    l.reverse.getLast? = l.head? := by
  cases l with
  | nil => rfl
  | cons x t => simp [List.reverse_cons, List.getLast?_concat]

/-- Claim C2: the 32-bit decode combines the two words low word first:
`word[0]` is the least-significant 16 bits, `word[1]` the most-significant,
and `ReadInt32` reinterprets exactly that value in two's complement; in
particular words `[0x0010, 0x0000]` decode to 16 and `[0x0000, 0x0001]` to
65536. -/
theorem ReadUint32_low_word_first (d : Device) (addr w0 w1 : ℕ)
    (hw : d addr 2 = some [w0, w1]) (h0 : w0 < 65536) (h1 : w1 < 65536) :
    ReadUint32 d addr = some (w0 + 65536 * w1) ∧
    ReadInt32 d addr = some (toInt32 (w0 + 65536 * w1)) ∧
    w0 + 65536 * w1 < 4294967296 ∧
    ReadUint32 (constDev [0x0010, 0x0000]) 0 = some 16 ∧
    ReadUint32 (constDev [0x0000, 0x0001]) 0 = some 65536 := by
  have hpow : (2 : ℕ) ^ 16 = 65536 := by norm_num
  have key := lor_shiftLeft_eq_add 16 w0 w1 (by omega)
  have hbase : ReadUint32 d addr = some (w0 + 65536 * w1) := by
    rw [ReadUint32, hw]
    simp only [Option.map_some', Option.some.injEq, List.getD_cons_zero,
      List.getD_cons_succ]
    rw [key, hpow]
    ring
  refine ⟨hbase, ?_, by omega, by decide, by decide⟩
  rw [ReadInt32, hbase, Option.map_some']

/-- Witness for C2 at a concrete device. -/
theorem ReadUint32_low_word_first_witness :
    ReadUint32 (constDev [0x0010, 0x0000]) 5003 = some (16 + 65536 * 0) :=
  (ReadUint32_low_word_first (constDev [0x0010, 0x0000]) 5003 16 0 rfl
    (by decide) (by decide)).1

/-- Claim C9: `ReadString` splits each word into two bytes high byte first in
word order, and strips NUL bytes only from the end: the raw byte expansion
is the decoded result followed by a block of zeros, and the decoded result
never ends in a zero (interior NULs are untouched); words encoding bytes
`[0x53, 0x4E, 0x00, 0x00]` decode to `"SN"`. -/
theorem ReadString_strips_trailing_nuls :
    (∀ regs : List ℕ, ∃ zeros : List ℕ,
        bytesFromWords regs = readStringBytes regs ++ zeros ∧
        (∀ b ∈ zeros, b = 0) ∧
        (∀ a, (readStringBytes regs).getLast? = some a → a ≠ 0)) ∧
    (∀ reg rest, bytesFromWords (reg :: rest) =
        (reg >>> 8) % 256 :: (reg &&& 255) :: bytesFromWords rest) ∧
    bytesFromWords [0x534E, 0x0000] = [0x53, 0x4E, 0, 0] ∧
    readStringBytes [0x534E, 0x0000] = [0x53, 0x4E] ∧
    ReadString (constDev [0x534E, 0x0000]) RegSerialNumber 2 =
      some [0x53, 0x4E] := by
  refine ⟨?_, fun reg rest => rfl, by decide, by decide, by decide⟩
  intro regs
  refine ⟨((bytesFromWords regs).reverse.takeWhile fun b => b == 0).reverse,
    ?_, ?_, ?_⟩
  · rw [readStringBytes, stripTrailingNuls, ← List.reverse_append,
      List.takeWhile_append_dropWhile, List.reverse_reverse]
  · intro b hb
    rw [List.mem_reverse] at hb
    have := List.mem_takeWhile_imp hb
    simpa using this
  · intro a ha
    rw [readStringBytes, stripTrailingNuls, getLast?_reverse_eq_head?] at ha
    have := dropWhile_head_not (fun b => b == 0) _ a ha
    simpa using this

/-- Witness for C9 at a concrete word list. -/
theorem ReadString_strips_trailing_nuls_witness :
    ∃ zeros : List ℕ,
      bytesFromWords [0x534E, 0x0000] =
        readStringBytes [0x534E, 0x0000] ++ zeros ∧
      (∀ b ∈ zeros, b = 0) ∧
      (∀ a, (readStringBytes [0x534E, 0x0000]).getLast? = some a → a ≠ 0) :=
  ReadString_strips_trailing_nuls.1 [0x534E, 0x0000]

/-- Claim C8: with a 30-minute bucket, the baseline average is taken exactly
over the fetched samples whose local time-of-day minutes lie in
`[bucketStart, bucketStart + 30)` where
`bucketStart = (nowMinutes / 30) * 30`; a sample at local 14:07 (847)
matches a query at local 14:25 (865) while one at 14:31 (871) does not. -/
theorem bucket_membership :
    (∀ (nowMinutes : ℕ) (samples : List PowerSample) (s : PowerSample),
        s ∈ bucketMatched nowMinutes 30 samples ↔
          s ∈ samples ∧ (nowMinutes / 30) * 30 ≤ s.minutes ∧
            s.minutes < (nowMinutes / 30) * 30 + 30) ∧
    (⟨847, 1000⟩ : PowerSample) ∈
      bucketMatched 865 30 [⟨847, 1000⟩, ⟨871, 2000⟩] ∧
    (⟨871, 2000⟩ : PowerSample) ∉
      bucketMatched 865 30 [⟨847, 1000⟩, ⟨871, 2000⟩] ∧
    GetAveragePowerForTimeOfDay 865 30 [⟨847, 1000⟩, ⟨871, 2000⟩] =
      (1000, 1) := by
  have hm : bucketMatched 865 30 [⟨847, 1000⟩, ⟨871, 2000⟩] =
      [⟨847, 1000⟩] := by decide
  refine ⟨?_, by decide, by decide, ?_⟩
  · intro nowMinutes samples s
    simp [bucketMatched, List.mem_filter, and_assoc]
  · simp only [GetAveragePowerForTimeOfDay, hm]
    norm_num

/-- Witness for C8 at a concrete sample and query time. -/
theorem bucket_membership_witness :
    (⟨847, 1000⟩ : PowerSample) ∈
      bucketMatched 865 30 [⟨847, 1000⟩] :=
  (bucket_membership.1 865 [⟨847, 1000⟩] ⟨847, 1000⟩).mpr (by decide)

/-- Auxiliary: on a present weather snapshot `classifyWeather` always
produces a non-empty label — the final fallthrough is the clear-sky
label. -/
theorem classifyWeather_some_ne (w : WeatherData) :
    classifyWeather (some w) ≠ "" := by
  rw [classifyWeather]
  split_ifs <;> decide

/-- Claim C5 counterexample: `classifyWeather` has no fog case. A snapshot
whose condition is `"fog"` is labelled purely by cloud cover — full cover
yields the overcast label, zero cover the clear-sky label — so the
condition `fog` does not determine the label ahead of the cloud-cover
cases, contrary to the claimed precedence. -/
theorem classifyWeather_fog_cex :
    classifyWeather (some ⟨"fog", 100, 0, 0⟩) = "céu encoberto" ∧
    classifyWeather (some ⟨"fog", 0, 0, 0⟩) = "céu limpo" ∧
    classifyWeather (some ⟨"fog", 100, 0, 0⟩) ≠
      classifyWeather (some ⟨"fog", 0, 0, 0⟩) := by
  have hct : containsThunder "fog" = false := by decide
  have hwr : weatherRain ⟨"fog", 100, 0, 0⟩ = 0 := by
    rw [weatherRain]; norm_num
  have hwr0 : weatherRain ⟨"fog", 0, 0, 0⟩ = 0 := by
    rw [weatherRain]; norm_num
  refine ⟨?_, ?_, ?_⟩
  · rw [classifyWeather]; rw [hwr]; simp [hct]; norm_num
  · rw [classifyWeather]; rw [hwr0]; simp [hct]; norm_num
  · rw [classifyWeather, classifyWeather]; rw [hwr, hwr0]; simp [hct]
    norm_num
    decide

/-- Claim C5 (amended): the derived weather label follows the precedence
thunderstorm > heavy rain (rain ≥ 5) > rain (rain ≥ 1) >
overcast (≥ 80% cloud) > cloudy (≥ 50%) > partly cloudy (> 0%) > clear,
first match wins, where rain is `max(Rain1h, Rain3h/3)` and thunderstorms
are detected from the condition string; there is no fog case, so a fog
condition falls through to the cloud-cover cases. An absent snapshot maps
to the empty label. -/
theorem classifyWeather_precedence (data : WeatherData) :
    classifyWeather none = "" ∧
    (containsThunder data.Condition = true →
      classifyWeather (some data) = "temporal") ∧
    (containsThunder data.Condition = false → 5 ≤ weatherRain data →
      classifyWeather (some data) = "chuva forte") ∧
    (containsThunder data.Condition = false → weatherRain data < 5 →
      1 ≤ weatherRain data → classifyWeather (some data) = "chuva") ∧
    (containsThunder data.Condition = false → weatherRain data < 1 →
      80 ≤ data.Clouds → classifyWeather (some data) = "céu encoberto") ∧
    (containsThunder data.Condition = false → weatherRain data < 1 →
      data.Clouds < 80 → 50 ≤ data.Clouds →
      classifyWeather (some data) = "nublado") ∧
    (containsThunder data.Condition = false → weatherRain data < 1 →
      data.Clouds < 50 → 0 < data.Clouds →
      classifyWeather (some data) = "poucas nuvens") ∧
    (containsThunder data.Condition = false → weatherRain data < 1 →
      data.Clouds ≤ 0 → classifyWeather (some data) = "céu limpo") := by
  refine ⟨rfl, ?_, ?_, ?_, ?_, ?_, ?_, ?_⟩
  · intro h1
    rw [classifyWeather]; simp [h1]
  · intro h1 h2
    rw [classifyWeather]; simp [h1, h2]
  · intro h1 h2 h3
    rw [classifyWeather]; simp [h1, not_le.mpr h2, h3]
  · intro h1 h2 h3
    have h2a : ¬(5 : ℚ) ≤ weatherRain data :=
      not_le.mpr (lt_trans h2 (by norm_num))
    rw [classifyWeather]; simp [h1, h2a, not_le.mpr h2, h3]
  · intro h1 h2 h3 h4
    have h2a : ¬(5 : ℚ) ≤ weatherRain data :=
      not_le.mpr (lt_trans h2 (by norm_num))
    rw [classifyWeather]
    simp [h1, h2a, not_le.mpr h2, not_le.mpr h3, h4]
  · intro h1 h2 h3 h4
    have h2a : ¬(5 : ℚ) ≤ weatherRain data :=
      not_le.mpr (lt_trans h2 (by norm_num))
    have hc80 : ¬(80 : ℤ) ≤ data.Clouds := by omega
    rw [classifyWeather]
    simp [h1, h2a, not_le.mpr h2, hc80, not_le.mpr h3, h4]
  · intro h1 h2 h3
    have h2a : ¬(5 : ℚ) ≤ weatherRain data :=
      not_le.mpr (lt_trans h2 (by norm_num))
    rw [classifyWeather]
    have hc80 : ¬(80 : ℤ) ≤ data.Clouds := by omega
    have hc50 : ¬(50 : ℤ) ≤ data.Clouds := by omega
    have hc0 : ¬(0 : ℤ) < data.Clouds := by omega
    simp [h1, h2a, not_le.mpr h2, hc80, hc50, hc0]

/-- Witness for C5 (amended) at a concrete rainy snapshot. -/
theorem classifyWeather_precedence_witness :
    classifyWeather (some ⟨"rain", 0, 2, 0⟩) = "chuva" :=
  (classifyWeather_precedence ⟨"rain", 0, 2, 0⟩).2.2.2.1 (by decide)
    (by rw [weatherRain]; norm_num) (by rw [weatherRain]; norm_num)

/-- Claim C4: the insight status follows the claimed case analysis in order:
not daylight yields `night` with ratio 0; else fewer than 20 matched
samples or a non-positive average yields `insufficient_history`; else with
`ratio = actualPower / average`, a ratio below 0.4 yields
`low_power_weather` when a weather label is derivable and
`low_power_unexpected` otherwise; a ratio of at least 0.4 yields
`normal`. -/
theorem productionInsight_case_analysis (daylight : Bool) (samples : ℕ)
    (avg : ℚ) (actualPower : ℕ) (weather : Option WeatherData) :
    (daylight = false →
      productionInsight daylight samples avg actualPower weather =
        ⟨"night", 0, ""⟩) ∧
    (daylight = true → (samples < insightMinSamples ∨ avg ≤ 0) →
      productionInsight daylight samples avg actualPower weather =
        ⟨"insufficient_history", 0, ""⟩) ∧
    (daylight = true → insightMinSamples ≤ samples → 0 < avg →
      (actualPower : ℚ) / avg < insightLowRatio →
      classifyWeather weather ≠ "" →
      productionInsight daylight samples avg actualPower weather =
        ⟨"low_power_weather", (actualPower : ℚ) / avg,
          classifyWeather weather⟩) ∧
    (daylight = true → insightMinSamples ≤ samples → 0 < avg →
      (actualPower : ℚ) / avg < insightLowRatio →
      classifyWeather weather = "" →
      productionInsight daylight samples avg actualPower weather =
        ⟨"low_power_unexpected", (actualPower : ℚ) / avg, ""⟩) ∧
    (daylight = true → insightMinSamples ≤ samples → 0 < avg →
      insightLowRatio ≤ (actualPower : ℚ) / avg →
      productionInsight daylight samples avg actualPower weather =
        ⟨"normal", (actualPower : ℚ) / avg, classifyWeather weather⟩) := by
  refine ⟨?_, ?_, ?_, ?_, ?_⟩
  · intro h1
    rw [productionInsight]; simp [h1]
  · intro h1 h2
    rw [productionInsight]; simp [h1, h2]
  · intro h1 h2 h3 h4 h5
    have hno : ¬(samples < insightMinSamples ∨ avg ≤ 0) := by
      push_neg; exact ⟨h2, h3⟩
    rw [productionInsight]; simp [h1, hno, h4, h5]
  · intro h1 h2 h3 h4 h5
    have hno : ¬(samples < insightMinSamples ∨ avg ≤ 0) := by
      push_neg; exact ⟨h2, h3⟩
    rw [productionInsight]; simp [h1, hno, h4, h5]
  · intro h1 h2 h3 h4
    have hno : ¬(samples < insightMinSamples ∨ avg ≤ 0) := by
      push_neg; exact ⟨h2, h3⟩
    rw [productionInsight]; simp [h1, hno, not_lt.mpr h4]

/-- Witness for C4 exercising the night, insufficient-history,
low-power-unexpected and normal branches at concrete inputs. -/
theorem productionInsight_case_analysis_witness :
    productionInsight false 0 0 0 none = ⟨"night", 0, ""⟩ ∧
    productionInsight true 5 100 90 none = ⟨"insufficient_history", 0, ""⟩ ∧
    productionInsight true 25 1000 250 none =
      ⟨"low_power_unexpected", (250 : ℚ) / 1000, ""⟩ ∧
    productionInsight true 25 1000 900 none =
      ⟨"normal", (900 : ℚ) / 1000, classifyWeather none⟩ :=
  ⟨(productionInsight_case_analysis false 0 0 0 none).1 rfl,
   (productionInsight_case_analysis true 5 100 90 none).2.1 rfl
     (Or.inl (by norm_num [insightMinSamples])),
   (productionInsight_case_analysis true 25 1000 250 none).2.2.2.1 rfl
     (by norm_num [insightMinSamples]) (by norm_num)
     (by norm_num [insightLowRatio]) rfl,
   (productionInsight_case_analysis true 25 1000 900 none).2.2.2.2 rfl
     (by norm_num [insightMinSamples]) (by norm_num)
     (by norm_num [insightLowRatio])⟩

/-- Claim C10: a present weather snapshot always classifies to a non-empty
label, so in the low-ratio branch the status is `low_power_unexpected`
exactly when the cached weather snapshot is absent — a clear-sky snapshot
with a low ratio is classified `low_power_weather`. -/
theorem low_power_unexpected_iff_no_weather (weather : Option WeatherData)
    (w : WeatherData) (samples : ℕ) (avg : ℚ) (actualPower : ℕ)
    (hs : insightMinSamples ≤ samples) (ha : 0 < avg)
    (hr : (actualPower : ℚ) / avg < insightLowRatio) :
    classifyWeather (some w) ≠ "" ∧
    ((productionInsight true samples avg actualPower weather).status =
        "low_power_unexpected" ↔ weather = none) := by
  have hno : ¬(samples < insightMinSamples ∨ avg ≤ 0) := by
    push_neg; exact ⟨hs, ha⟩
  refine ⟨classifyWeather_some_ne w, ?_⟩
  cases weather with
  | none =>
    rw [productionInsight]
    simp [hno, hr, classifyWeather]
  | some w2 =>
    rw [productionInsight]
    simp [hno, hr, classifyWeather_some_ne w2]

/-- Witness for C10 at a concrete clear snapshot and low-ratio inputs. -/
theorem low_power_unexpected_iff_no_weather_witness :
    classifyWeather (some ⟨"clear", 0, 0, 0⟩) ≠ "" ∧
    ((productionInsight true 25 1000 250 none).status =
        "low_power_unexpected" ↔ (none : Option WeatherData) = none) :=
  low_power_unexpected_iff_no_weather none ⟨"clear", 0, 0, 0⟩ 25 1000 250
    (by norm_num [insightMinSamples]) (by norm_num)
    (by norm_num [insightLowRatio])

/-- A device link on which every read fails (transport down), so the
serial-number probe and with it the whole sweep fail. -/
def devFail : Device := fun _ _ => none

/-- A device link on which every read succeeds, answering with words of
value 1. -/
def devOk : Device := fun _ q => some (List.replicate q 1)

/-- Claim C3: hot reconfiguration is atomic under failure: whenever the
candidate's connect or validation sweep fails, the call returns the failure
with the active link/reader/snapshot state unchanged and the old link not
closed; the new link is swapped in (and the old one closed, the snapshot
becoming the validation reading) exactly when the connect and the full
validation sweep succeeded. -/
theorem UpdateInverterConfig_atomic (st : CState) (cand : Candidate) :
    ((UpdateInverterConfig st cand).failed = true →
      (UpdateInverterConfig st cand).state = st ∧
      (UpdateInverterConfig st cand).oldClosed = false) ∧
    ((UpdateInverterConfig st cand).failed = true ↔
      (cand.connectOk = false ∨ (ReadAllData cand.dev).2 = true)) ∧
    ((UpdateInverterConfig st cand).failed = false →
      (UpdateInverterConfig st cand).state.clientDev = cand.dev ∧
      (UpdateInverterConfig st cand).state.latestData =
        some (ReadAllData cand.dev).1 ∧
      (UpdateInverterConfig st cand).oldClosed = true) := by
  rcases hdata : ReadAllData cand.dev with ⟨data, err⟩
  cases hco : cand.connectOk <;> cases err <;>
    simp [UpdateInverterConfig, hco, hdata]

/-- Witness for C3: a candidate whose validation sweep fails leaves the
state untouched and the old link open. -/
theorem UpdateInverterConfig_atomic_witness :
    (UpdateInverterConfig ⟨devFail, none⟩ ⟨true, devFail⟩).state =
      (⟨devFail, none⟩ : CState) ∧
    (UpdateInverterConfig ⟨devFail, none⟩ ⟨true, devFail⟩).oldClosed =
      false :=
  (UpdateInverterConfig_atomic ⟨devFail, none⟩ ⟨true, devFail⟩).1 rfl

/-- Claim C6 counterexample: on a tick whose initial sweep fails and whose
reconnect attempt also fails, `collect` gives up after one `Reconnect` and
zero retry sweeps — the claimed "retries the sweep exactly once" does not
hold on every failed tick. -/
theorem collect_reconnect_fail_cex :
    (ReadAllData devFail).2 = true ∧
    collect ⟨true, none⟩ ⟨true, devFail, false, devFail⟩ =
      ⟨⟨false, none⟩, 1, 0⟩ :=
  ⟨rfl, rfl⟩

/-- Claim C6 (amended): on every tick whose initial sweep fails, `collect`
invokes `Reconnect` exactly once; it then runs exactly one retry sweep when
the reconnect succeeded and none when it failed — never more than one of
either — and whenever the tick gives up (reconnect failed, or the retry
sweep failed too) the published snapshot is left unchanged. -/
theorem collect_retry_policy (st : CollectorState) (env : TickEnv)
    (hconn : st.connected = true ∨ env.connectOk = true)
    (hfail : (ReadAllData env.dev1).2 = true) :
    (collect st env).reconnectCalls = 1 ∧
    (collect st env).retrySweeps = (if env.reconnectOk then 1 else 0) ∧
    (collect st env).retrySweeps ≤ 1 ∧
    (env.reconnectOk = false →
      (collect st env).state.latestData = st.latestData) ∧
    (env.reconnectOk = true → (ReadAllData env.dev2).2 = true →
      (collect st env).state.latestData = st.latestData) := by
  have hc : (st.connected || env.connectOk) = true := by
    rcases hconn with h | h <;> simp [h]
  rcases hdata : ReadAllData env.dev1 with ⟨data, err⟩
  have herr : err = true := by rw [hdata] at hfail; exact hfail
  subst herr
  rcases hdata2 : ReadAllData env.dev2 with ⟨data2, err2⟩
  cases hro : env.reconnectOk <;> cases err2 <;>
    simp [collect, hc, hdata, hdata2, hro]

/-- Witness for C6 (amended): a failed first sweep with a failed reconnect
triggers exactly one reconnect call. -/
theorem collect_retry_policy_witness :
    (collect ⟨true, none⟩ ⟨true, devFail, false, devFail⟩).reconnectCalls =
      1 :=
  (collect_retry_policy ⟨true, none⟩ ⟨true, devFail, false, devFail⟩
    (Or.inl rfl) rfl).1

/-- Claim C7: when the serial-number probe fails, `ReadAllData` returns the
initial record — `online = false` — together with the error, and the read
trace contains only the probe: no other field read is attempted in that
sweep. -/
theorem ReadAllData_probe_failure (d : Device)
    (h : ReadString d RegSerialNumber 10 = none) :
    ReadAllData d = (initialInverterData, true) ∧
    (ReadAllData d).1.IsOnline = false ∧
    ReadAllDataTrace d = [(RegSerialNumber, 10)] := by
  refine ⟨?_, ?_, ?_⟩ <;>
    simp [ReadAllData, ReadAllDataTrace, h, initialInverterData]

/-- Witness for C7 on a dead device link. -/
theorem ReadAllData_probe_failure_witness :
    ReadAllData devFail = (initialInverterData, true) :=
  (ReadAllData_probe_failure devFail rfl).1

/-- Auxiliary: membership in one `errIf` block. -/
theorem mem_errIf_iff {α : Type} (o : Option α) (n e : String) :
    e ∈ errIf o n ↔ (e = n ∧ o = none) := by
  rw [errIf]; cases o <;> simp

/-- Auxiliary: exactly five reads of the sweep record failures — the
failure list contains a name iff it is one of the five tracked field names
and that field's read failed. -/
theorem mem_sweep_errors (d : Device) (serial : List ℕ)
    (h : ReadString d RegSerialNumber 10 = some serial) (e : String) :
    e ∈ (ReadAllData d).1.Errors ↔
      ((e = "device_type" ∧ ReadUint16 d RegDeviceTypeCode = none) ∨
       (e = "nominal_power" ∧ ReadUint16 d RegNominalPower = none) ∨
       (e = "daily_energy" ∧ ReadUint16 d RegDailyEnergy = none) ∨
       (e = "total_energy" ∧ ReadUint32 d RegTotalEnergy = none) ∨
       (e = "temperature" ∧ ReadInt16 d RegInsideTemperature = none)) := by
  simp only [ReadAllData, h]
  simp only [List.mem_append, mem_errIf_iff]
  tauto

/-- Device for the C1 counterexample: every register read succeeds except
the MPPT1-voltage register, whose read fails. -/
def cexDevice : Device := fun a q =>
  if a == RegMPPT1Voltage then none
  else some (List.replicate q 1)

/-- Claim C1 counterexample: a sweep in which only the MPPT1-voltage read
fails returns `online = true` and that field at its zero default, but an
empty failure list — the failing field's name is not appended, because only
five of the nineteen per-field reads record failures. -/
theorem ReadAllData_untracked_failure_cex :
    ReadUint16 cexDevice RegMPPT1Voltage = none ∧
    (ReadAllData cexDevice).2 = false ∧
    (ReadAllData cexDevice).1.IsOnline = true ∧
    (ReadAllData cexDevice).1.MPPT1Voltage = 0 ∧
    (ReadAllData cexDevice).1.Errors = [] :=
  ⟨rfl, rfl, rfl, rfl, rfl⟩

/-- Claim C1 (amended): when the serial-number probe succeeds, the sweep
never aborts — all nineteen remaining reads are issued (the trace is the
full read list) and the result is `online = true` with no error returned.
Each field read succeeding populates that field; each field read failing
leaves the field at its default. However only the five tracked fields
(device type, nominal power, daily energy, total energy, temperature)
append their name to the failure list — characterized exactly by the
membership equivalence below — while the other fields fail silently, the
output type falling back to `"Single Phase"` and the running-state string
to `"Unknown"` rather than zero defaults. -/
theorem ReadAllData_partial_failure (d : Device) (serial : List ℕ)
    (h : ReadString d RegSerialNumber 10 = some serial) :
    (ReadAllData d).2 = false ∧
    (ReadAllData d).1.IsOnline = true ∧
    (ReadAllData d).1.SerialNumber = serial ∧
    ReadAllDataTrace d =
      [(RegSerialNumber, 10), (RegDeviceTypeCode, 1), (RegNominalPower, 1),
       (RegOutputType, 1), (RegDailyEnergy, 1), (RegTotalEnergy, 2),
       (RegInsideTemperature, 1), (RegMPPT1Voltage, 1), (RegMPPT1Current, 1),
       (RegMPPT2Voltage, 1), (RegMPPT2Current, 1), (RegTotalDCPower, 2),
       (RegPhaseAVoltage, 1), (RegGridFrequency, 1), (RegPhaseACurrent, 1),
       (RegTotalActivePower, 2), (RegReactivePower, 2), (RegPowerFactor, 1),
       (RegRunningState, 1), (RegFaultCode, 1)] ∧
    (∀ e, e ∈ (ReadAllData d).1.Errors ↔
      ((e = "device_type" ∧ ReadUint16 d RegDeviceTypeCode = none) ∨
       (e = "nominal_power" ∧ ReadUint16 d RegNominalPower = none) ∨
       (e = "daily_energy" ∧ ReadUint16 d RegDailyEnergy = none) ∨
       (e = "total_energy" ∧ ReadUint32 d RegTotalEnergy = none) ∨
       (e = "temperature" ∧ ReadInt16 d RegInsideTemperature = none))) ∧
    (ReadUint16 d RegDeviceTypeCode = none →
      (ReadAllData d).1.DeviceTypeCode = 0) ∧
    (∀ v, ReadUint16 d RegDeviceTypeCode = some v →
      (ReadAllData d).1.DeviceTypeCode = v) ∧
    (ReadUint16 d RegNominalPower = none →
      (ReadAllData d).1.NominalPower = 0) ∧
    (∀ v, ReadUint16 d RegNominalPower = some v →
      (ReadAllData d).1.NominalPower = (v : ℚ) * 0.1) ∧
    (ReadUint16 d RegOutputType = none →
      (ReadAllData d).1.OutputType = "Single Phase") ∧
    (∀ v, ReadUint16 d RegOutputType = some v →
      (ReadAllData d).1.OutputType = GetOutputTypeString v) ∧
    (ReadUint16 d RegDailyEnergy = none →
      (ReadAllData d).1.DailyEnergy = 0) ∧
    (∀ v, ReadUint16 d RegDailyEnergy = some v →
      (ReadAllData d).1.DailyEnergy = (v : ℚ) * 0.1) ∧
    (ReadUint32 d RegTotalEnergy = none →
      (ReadAllData d).1.TotalEnergy = 0) ∧
    (∀ v, ReadUint32 d RegTotalEnergy = some v →
      (ReadAllData d).1.TotalEnergy = (v : ℚ) * 0.1) ∧
    (ReadInt16 d RegInsideTemperature = none →
      (ReadAllData d).1.Temperature = 0) ∧
    (∀ v, ReadInt16 d RegInsideTemperature = some v →
      (ReadAllData d).1.Temperature = (v : ℚ) * 0.1) ∧
    (ReadUint16 d RegMPPT1Voltage = none →
      (ReadAllData d).1.MPPT1Voltage = 0) ∧
    (∀ v, ReadUint16 d RegMPPT1Voltage = some v →
      (ReadAllData d).1.MPPT1Voltage = (v : ℚ) * 0.1) ∧
    (ReadUint16 d RegMPPT1Current = none →
      (ReadAllData d).1.MPPT1Current = 0) ∧
    (∀ v, ReadUint16 d RegMPPT1Current = some v →
      (ReadAllData d).1.MPPT1Current = (v : ℚ) * 0.01) ∧
    (ReadUint16 d RegMPPT2Voltage = none →
      (ReadAllData d).1.MPPT2Voltage = 0) ∧
    (∀ v, ReadUint16 d RegMPPT2Voltage = some v →
      (ReadAllData d).1.MPPT2Voltage = (v : ℚ) * 0.1) ∧
    (ReadUint16 d RegMPPT2Current = none →
      (ReadAllData d).1.MPPT2Current = 0) ∧
    (∀ v, ReadUint16 d RegMPPT2Current = some v →
      (ReadAllData d).1.MPPT2Current = (v : ℚ) * 0.01) ∧
    (ReadUint32 d RegTotalDCPower = none →
      (ReadAllData d).1.TotalDCPower = 0) ∧
    (∀ v, ReadUint32 d RegTotalDCPower = some v →
      (ReadAllData d).1.TotalDCPower = v) ∧
    (ReadUint16 d RegPhaseAVoltage = none →
      (ReadAllData d).1.GridVoltage = 0) ∧
    (∀ v, ReadUint16 d RegPhaseAVoltage = some v →
      (ReadAllData d).1.GridVoltage = (v : ℚ) * 0.1) ∧
    (ReadUint16 d RegGridFrequency = none →
      (ReadAllData d).1.GridFrequency = 0) ∧
    (∀ v, ReadUint16 d RegGridFrequency = some v →
      (ReadAllData d).1.GridFrequency = (v : ℚ) * 0.1) ∧
    (ReadUint16 d RegPhaseACurrent = none →
      (ReadAllData d).1.GridCurrent = 0) ∧
    (∀ v, ReadUint16 d RegPhaseACurrent = some v →
      (ReadAllData d).1.GridCurrent = (v : ℚ) * 0.1) ∧
    (ReadUint32 d RegTotalActivePower = none →
      (ReadAllData d).1.TotalActivePower = 0) ∧
    (∀ v, ReadUint32 d RegTotalActivePower = some v →
      (ReadAllData d).1.TotalActivePower = v) ∧
    (ReadInt32 d RegReactivePower = none →
      (ReadAllData d).1.ReactivePower = 0) ∧
    (∀ v, ReadInt32 d RegReactivePower = some v →
      (ReadAllData d).1.ReactivePower = v) ∧
    (ReadInt16 d RegPowerFactor = none →
      (ReadAllData d).1.PowerFactor = 0) ∧
    (∀ v, ReadInt16 d RegPowerFactor = some v →
      (ReadAllData d).1.PowerFactor = (v : ℚ) * 0.001) ∧
    (ReadUint16 d RegRunningState = none →
      (ReadAllData d).1.RunningState = 0 ∧
      (ReadAllData d).1.RunningStateString = "Unknown") ∧
    (∀ v, ReadUint16 d RegRunningState = some v →
      (ReadAllData d).1.RunningState = v ∧
      (ReadAllData d).1.RunningStateString = GetRunningStateString v) ∧
    (ReadUint16 d RegFaultCode = none →
      (ReadAllData d).1.FaultCode = 0) ∧
    (∀ v, ReadUint16 d RegFaultCode = some v →
      (ReadAllData d).1.FaultCode = v) := by
  refine ⟨?_, ?_, ?_, ?_, mem_sweep_errors d serial h, ?_⟩
  · simp only [ReadAllData, h]
  · simp only [ReadAllData, h]
  · simp only [ReadAllData, h]
  · simp only [ReadAllDataTrace, h]
  · repeat' apply And.intro
    all_goals intros
    all_goals simp only [ReadAllData, h]
    all_goals simp_all

/-- Witness for C1 (amended) on a fully healthy device link. -/
theorem ReadAllData_partial_failure_witness :
    (ReadAllData devOk).2 = false :=
  (ReadAllData_partial_failure devOk
    (readStringBytes (List.replicate 10 1)) rfl).1

end SungrowMonitor
